import Mathlib

/-!
Shallow embedding of src/modules/meetingActivity.js.

The module keeps meeting activity records (a mongoose collection, modelled
here as a list of records plus a fresh-id counter), reconciles incoming
"meeting-started" and "meeting-completed" socket events into those records,
and broadcasts a normalized payload to the room of the owning user.

Modelling conventions:
- Timestamps are natural numbers; the current time (new Date()) is passed in
  explicitly as a parameter named now.
- A JavaScript string field that may be undefined is an Option String; the
  guard on a string value s (truthiness) is false exactly for undefined and
  for the empty string.
- Date-valued expressions of the form x || new Date() are modelled as
  Option.getD x now: a present Date object is always truthy in JavaScript.
- Mongoose behaviour that the handlers rely on is modelled faithfully:
  the schema default for status is the string "completed", the participants
  array defaults to the empty list, createdAt defaults to the current time,
  and keys whose value is undefined are stripped from an update object, so
  findByIdAndUpdate leaves the corresponding stored fields unchanged.
- Socket.io room semantics, as documented by the library and used at the
  call sites in this file: socket.join adds the socket to a room (it does
  not leave any other room), socket.to(room).emit delivers to every socket
  currently in the room except the emitting socket, and the repository's own
  disconnect handler body performs no room manipulation (it only logs).
-/

/-- Truthiness of a possibly-undefined JavaScript string: false for
undefined and for the empty string. -/
def jsTruthy : Option String → Bool
  | none => false
  | some s => s != ""

/-- Value of a possibly-undefined JavaScript string once it is used as a
string (validated call sites only reach this with a present value). -/
def jsStr : Option String → String
  | none => ""
  | some s => s

/-- The idiom x || d on strings: the default replaces an undefined or empty
value, any other value passes through. Used at meetingName || fallback. -/
def jsOrDefault (x : Option String) (d : String) : String :=
  match x with
  | none => d
  | some s => if s = "" then d else s

/-- Lifecycle tag written by the meeting-started handler. -/
def kindCreated : String := "created"

/-- Lifecycle tag written by the meeting-completed handler. -/
def kindCompleted : String := "completed"

/-- Status written by the meeting-started handler. -/
def statusInProgress : String := "in-progress"

/-- Status written by the meeting-completed handler, and the schema default. -/
def statusCompleted : String := "completed"

/-- Fallback display name used by createActivity. -/
def unnamedMeetingName : String := "Unnamed Meeting"

/-- Placeholder name that the update path refuses to store over an existing
name (line 222 of the source). -/
def meetingRoomPlaceholder : String := "Meeting Room"

/-- One participant snapshot, as in the schema subdocument. -/
structure Participant where
  userId : Option String := none
  name : Option String := none
  joinedAt : Option Nat := none
  leftAt : Option Nat := none
deriving DecidableEq

/-- One document of the MeetingActivity collection. -/
structure MeetingActivity where
  id : Nat
  userId : String
  meetingId : String
  meetingName : String
  type : String
  status : String
  duration : Option Nat
  participants : List Participant
  startTime : Option Nat
  endTime : Option Nat
  createdAt : Nat
deriving DecidableEq

/-- The collection state: stored documents plus the next fresh id. -/
structure StoreState where
  activities : List MeetingActivity
  nextId : Nat
deriving DecidableEq

/-- The additionalData object spread into the document by createActivity;
an absent key is none. -/
structure AdditionalData where
  status : Option String := none
  duration : Option Nat := none
  participants : Option (List Participant) := none
  startTime : Option Nat := none
  endTime : Option Nat := none
deriving DecidableEq

/-- createActivity (source lines 120-140): builds a new document from the
arguments and the additionalData spread, applying the schema defaults, and
saves it. Returns the saved document and the new collection state. -/
def createActivity (st : StoreState) (now : Nat) (userId meetingId : String)
    (meetingName : Option String) (ty : String) (extra : AdditionalData) :
    MeetingActivity × StoreState :=
  let activity : MeetingActivity :=
    { id := st.nextId
      userId := userId
      meetingId := meetingId
      meetingName := jsOrDefault meetingName unnamedMeetingName
      type := ty
      status := (extra.status).getD statusCompleted
      duration := extra.duration
      participants := (extra.participants).getD []
      startTime := extra.startTime
      endTime := extra.endTime
      createdAt := now }
  (activity, { activities := st.activities ++ [activity], nextId := st.nextId + 1 })

/-- An update object passed to findByIdAndUpdate; a key that is absent (or
was stripped because its value was undefined) is none. -/
structure UpdateData where
  type : Option String := none
  status : Option String := none
  duration : Option Nat := none
  participants : Option (List Participant) := none
  endTime : Option Nat := none
  meetingName : Option String := none
deriving DecidableEq

/-- Effect of an update object on one document: each present key is set,
every other field keeps its stored value. -/
def applyUpdate (a : MeetingActivity) (u : UpdateData) : MeetingActivity :=
  { a with
    type := (u.type).getD a.type
    status := (u.status).getD a.status
    duration := match u.duration with
      | some d => some d
      | none => a.duration
    participants := (u.participants).getD a.participants
    endTime := match u.endTime with
      | some t => some t
      | none => a.endTime
    meetingName := (u.meetingName).getD a.meetingName }

/-- updateActivity (source lines 143-156): findByIdAndUpdate with the new
document returned; yields null and leaves the store unchanged when no
document has the given id. -/
def updateActivity (st : StoreState) (activityId : Nat) (upd : UpdateData) :
    Option MeetingActivity × StoreState :=
  match (st.activities).find? (fun a => a.id == activityId) with
  | none => (none, st)
  | some a =>
    let a2 := applyUpdate a upd
    (some a2,
      { st with activities :=
          (st.activities).map (fun b => if b.id == activityId then a2 else b) })

/-- The findOne call of the meeting-completed handler (source lines
208-212): first stored document matching userId, meetingId and type
"created". -/
def findOpenSession (st : StoreState) (userId meetingId : String) :
    Option MeetingActivity :=
  (st.activities).find?
    (fun a => a.userId == userId && a.meetingId == meetingId && a.type == "created")

/-- Data object of a meeting-started socket event. -/
structure StartedEvent where
  meetingId : Option String := none
  meetingName : Option String := none
  userId : Option String := none
  startTime : Option Nat := none
deriving DecidableEq

/-- Data object of a meeting-completed socket event. -/
structure CompletedEvent where
  meetingId : Option String := none
  meetingName : Option String := none
  userId : Option String := none
  duration : Option Nat := none
  participants : Option (List Participant) := none
  startTime : Option Nat := none
  endTime : Option Nat := none
deriving DecidableEq

/-- Activity part of the emitted payload; keys the emit object omits are
none. -/
structure WireActivity where
  id : Nat
  meetingId : String
  meetingName : String
  type : String
  status : String
  duration : Option Nat := none
  participants : Option (List Participant) := none
  startTime : Option Nat := none
  endTime : Option Nat := none
  createdAt : Nat
  userId : String
deriving DecidableEq

/-- The activity-updated payload: an event kind tag plus the activity
field subset. -/
structure WirePayload where
  type : String
  activity : WireActivity
deriving DecidableEq

/-- Payload emitted by the meeting-started handler (source lines 176-188):
no duration, participants or endTime keys. -/
def startedPayload (a : MeetingActivity) : WirePayload :=
  { type := "meeting-started"
    activity :=
      { id := a.id
        meetingId := a.meetingId
        meetingName := a.meetingName
        type := a.type
        status := a.status
        startTime := a.startTime
        createdAt := a.createdAt
        userId := a.userId } }

/-- Payload emitted by the meeting-completed handler (source lines
238-253): all activity fields. -/
def completedPayload (a : MeetingActivity) : WirePayload :=
  { type := "meeting-completed"
    activity :=
      { id := a.id
        meetingId := a.meetingId
        meetingName := a.meetingName
        type := a.type
        status := a.status
        duration := a.duration
        participants := some a.participants
        startTime := a.startTime
        endTime := a.endTime
        createdAt := a.createdAt
        userId := a.userId } }

/-- Result of one handler run: the store afterwards, the payload handed to
the room emit (none when nothing was emitted), and whether the event was
dropped by the required-field validation (the handler logs and returns in
that case instead of throwing). -/
structure HandlerOutput where
  store : StoreState
  emitted : Option WirePayload
  invalid : Bool
deriving DecidableEq

/-- The meeting-started handler (source lines 161-193). -/
def handleMeetingStarted (st : StoreState) (now : Nat) (e : StartedEvent) :
    HandlerOutput :=
  if !jsTruthy e.meetingId || !jsTruthy e.userId then
    { store := st, emitted := none, invalid := true }
  else
    let created := createActivity st now (jsStr e.userId) (jsStr e.meetingId)
      e.meetingName kindCreated
      { status := some statusInProgress
        startTime := some ((e.startTime).getD now) }
    { store := created.2, emitted := some (startedPayload created.1), invalid := false }

/-- The update object built at source lines 216-223 for a found open
session: the duration and participants event fields pass straight through
(an undefined value is stripped by mongoose), endTime gets the event value
or the current time, and meetingName gets the event name only when it is
truthy and differs from the placeholder, otherwise the stored name. -/
def completedUpdateData (now : Nat) (e : CompletedEvent)
    (activity : MeetingActivity) : UpdateData :=
  { type := some kindCompleted
    status := some statusCompleted
    duration := e.duration
    participants := e.participants
    endTime := some ((e.endTime).getD now)
    meetingName := some
      (if jsTruthy e.meetingName && (jsStr e.meetingName != meetingRoomPlaceholder)
        then jsStr e.meetingName else activity.meetingName) }

/-- The meeting-completed handler (source lines 196-258). -/
def handleMeetingCompleted (st : StoreState) (now : Nat) (e : CompletedEvent) :
    HandlerOutput :=
  if !jsTruthy e.meetingId || !jsTruthy e.userId then
    { store := st, emitted := none, invalid := true }
  else
    let uid := jsStr e.userId
    let mid := jsStr e.meetingId
    match findOpenSession st uid mid with
    | some activity =>
      match updateActivity st activity.id (completedUpdateData now e activity) with
      | (some updated, st2) =>
        { store := st2, emitted := some (completedPayload updated), invalid := false }
      | (none, st2) =>
        { store := st2, emitted := none, invalid := false }
    | none =>
      let created := createActivity st now uid mid e.meetingName kindCompleted
        { status := some statusCompleted
          duration := e.duration
          participants := e.participants
          startTime := e.startTime
          endTime := some ((e.endTime).getD now) }
      { store := created.2, emitted := some (completedPayload created.1), invalid := false }

/-- A live connection, identified by its socket id. -/
abbrev Channel := Nat

/-- Socket.io room registry: the set of (socket, room) memberships. -/
structure RoomState where
  membership : List (Channel × String)
deriving DecidableEq

/-- Registry with no memberships. -/
def emptyRooms : RoomState := { membership := [] }

/-- Sockets currently in a room. -/
def roomMembers (rs : RoomState) (room : String) : List Channel :=
  ((rs.membership).filter (fun p => p.2 == room)).map (fun p => p.1)

/-- socket.join(room): adds the socket to the room; already a member means
no change. Leaves every other membership of the socket in place. -/
def socketJoin (rs : RoomState) (c : Channel) (room : String) : RoomState :=
  if (c, room) ∈ rs.membership then rs
  else { membership := rs.membership ++ [(c, room)] }

/-- The room name used for a user, as interpolated at the emit and join
call sites. -/
def userRoom (userId : String) : String := "user-" ++ userId

/-- The join-user-room handler (source lines 261-264): a bare socket.join
of the user room. -/
def handleJoinUserRoom (rs : RoomState) (c : Channel) (userId : String) : RoomState :=
  socketJoin rs c (userRoom userId)

/-- Channels subscribed to a user: the members of that user room. -/
def channelsFor (rs : RoomState) (userId : String) : List Channel :=
  roomMembers rs (userRoom userId)

/-- Delivery set of socket.to(userRoom).emit from a given sender socket:
every member of the room except the sender. -/
def publishTargets (rs : RoomState) (sender : Channel) (userId : String) :
    List Channel :=
  (roomMembers rs (userRoom userId)).filter (fun c => c != sender)

/-- The disconnect handler (source lines 267-270): its body only logs; the
registry is not touched. -/
def handleDisconnect (rs : RoomState) (_c : Channel) : RoomState := rs

/-- The empty string, for events carrying an empty required field. -/
def emptyName : String := ""

/-- Sample user id. -/
def userOne : String := "u1"

/-- Second sample user id. -/
def userTwo : String := "u2"

/-- Sample meeting id. -/
def meetingOne : String := "m1"

/-- Second sample meeting id. -/
def meetingTwo : String := "m2"

/-- Sample real meeting name. -/
def standupName : String := "Standup"

/-- An open session stored for userOne and meetingOne. -/
def openRec : MeetingActivity :=
  { id := 0
    userId := userOne
    meetingId := meetingOne
    meetingName := standupName
    type := "created"
    status := "in-progress"
    duration := none
    participants := []
    startTime := some 50
    endTime := none
    createdAt := 50 }

/-- A store holding exactly the open session openRec. -/
def st1 : StoreState := { activities := [openRec], nextId := 1 }

/-- A completion event for the open session, carrying the placeholder
name. -/
def evComplete1 : CompletedEvent :=
  { meetingId := some meetingOne
    meetingName := some meetingRoomPlaceholder
    userId := some userOne
    duration := some 30
    participants := some []
    endTime := some 90 }

/-- A started event for userOne and meetingOne. -/
def evStart1 : StartedEvent :=
  { meetingId := some meetingOne
    meetingName := some standupName
    userId := some userOne
    startTime := some 40 }

/-- A bare completion event for a meeting with no open session and no
meeting name. -/
def evComplete2 : CompletedEvent :=
  { meetingId := some meetingTwo
    userId := some userTwo
    duration := some 15 }

/-- A completion event for a meeting with no open session, carrying the
placeholder name. -/
def evComplete3 : CompletedEvent :=
  { meetingId := some meetingTwo
    meetingName := some meetingRoomPlaceholder
    userId := some userTwo
    duration := some 15 }

/-- A started event missing its userId. -/
def evStartBad : StartedEvent :=
  { meetingId := some meetingOne }

/-- A completion event with an empty meetingId. -/
def evCompleteBad : CompletedEvent :=
  { meetingId := some emptyName
    userId := some userOne }

/-- Registry with channels 1, 2 and 3 all subscribed to userOne. -/
def rsThree : RoomState :=
  handleJoinUserRoom (handleJoinUserRoom (handleJoinUserRoom emptyRooms 1 userOne) 2 userOne) 3 userOne

/-- Registry in which channel 1 subscribed to userOne and then re-subscribed
to userTwo. -/
def rsResub : RoomState :=
  handleJoinUserRoom (handleJoinUserRoom emptyRooms 1 userOne) 1 userTwo

/-- Registry with the single channel 1 subscribed to userOne. -/
def rsOne : RoomState :=
  handleJoinUserRoom emptyRooms 1 userOne

/-- With pairwise distinct document ids, the id lookup of findByIdAndUpdate
finds exactly the document previously located by findOne. -/
theorem find?_id_of_nodup :
    ∀ (l : List MeetingActivity) (r : MeetingActivity),
      (l.map (fun a => a.id)).Nodup → r ∈ l →
      l.find? (fun a => a.id == r.id) = some r := by
  intro l
  induction l with
  | nil => intro r _ hmem; cases hmem
  | cons h t ih =>
    intro r hnd hmem
    rw [List.map_cons, List.nodup_cons] at hnd
    rcases List.mem_cons.mp hmem with rfl | hmem2
    · rw [List.find?_cons_of_pos]
      exact beq_self_eq_true _
    · have hid : h.id ≠ r.id := by
        intro he
        exact hnd.1 (he ▸ List.mem_map.mpr ⟨r, hmem2, rfl⟩)
      rw [List.find?_cons_of_neg, ih r hnd.2 hmem2]
      simp [hid]

/-- Computation of the meeting-completed handler when validation passes and
an open session is found: the found document is updated through
findByIdAndUpdate and the updated document is emitted. -/
theorem handleMeetingCompleted_found (st : StoreState) (now : Nat)
    (e : CompletedEvent) (r : MeetingActivity)
    (hnd : ((st.activities).map (fun a => a.id)).Nodup)
    (hm : jsTruthy e.meetingId = true) (hu : jsTruthy e.userId = true)
    (hf : findOpenSession st (jsStr e.userId) (jsStr e.meetingId) = some r) :
    handleMeetingCompleted st now e =
      { store :=
          { activities := (st.activities).map
              (fun b => if b.id == r.id then applyUpdate r (completedUpdateData now e r) else b)
            nextId := st.nextId }
        emitted := some (completedPayload (applyUpdate r (completedUpdateData now e r)))
        invalid := false } := by
  have hmem : r ∈ st.activities := List.mem_of_find?_eq_some hf
  have hfind : (st.activities).find? (fun a => a.id == r.id) = some r :=
    find?_id_of_nodup _ _ hnd hmem
  unfold handleMeetingCompleted
  rw [hm, hu]
  simp only [Bool.not_true, Bool.or_self, Bool.false_eq_true, if_false]
  rw [hf]
  unfold updateActivity
  simp only [hfind]

/-- Computation of the meeting-completed handler when validation passes and
no open session exists: a new completed document is created and emitted. -/
theorem handleMeetingCompleted_notFound (st : StoreState) (now : Nat)
    (e : CompletedEvent)
    (hm : jsTruthy e.meetingId = true) (hu : jsTruthy e.userId = true)
    (hf : findOpenSession st (jsStr e.userId) (jsStr e.meetingId) = none) :
    handleMeetingCompleted st now e =
      (let created := createActivity st now (jsStr e.userId) (jsStr e.meetingId)
        e.meetingName kindCompleted
        { status := some statusCompleted
          duration := e.duration
          participants := e.participants
          startTime := e.startTime
          endTime := some ((e.endTime).getD now) }
      { store := created.2
        emitted := some (completedPayload created.1)
        invalid := false }) := by
  unfold handleMeetingCompleted
  rw [hm, hu]
  simp only [Bool.not_true, Bool.or_self, Bool.false_eq_true, if_false]
  rw [hf]

/-- Membership in the member list of a room is membership of the
corresponding pair in the registry. -/
theorem mem_roomMembers (rs : RoomState) (room : String) (c : Channel) :
    c ∈ roomMembers rs room ↔ (c, room) ∈ rs.membership := by
  simp only [roomMembers, List.mem_map, List.mem_filter]
  constructor
  · rintro ⟨⟨c1, r1⟩, ⟨hmem, hbeq⟩, rfl⟩
    have hr : r1 = room := by simpa using hbeq
    simpa [hr] using hmem
  · intro h
    exact ⟨(c, room), ⟨h, by simp⟩, rfl⟩

/-- Distinct users have distinct user rooms. -/
theorem userRoom_inj (u v : String) : userRoom u = userRoom v ↔ u = v := by
  constructor
  · intro h
    have h2 := congrArg String.data h
    simp only [userRoom, String.data_append] at h2
    exact String.ext (List.append_cancel_left h2)
  · intro h
    rw [h]

/-- Claim C6 (counterexample): with channels 1, 2 and 3 all subscribed to
userOne, a publish performed from channel 3 does not deliver to channel 3,
although channel 3 is currently subscribed to userOne; the claim that every
subscribed channel receives the payload is false on this input. -/
theorem publish_claim_counterexample :
    3 ∈ channelsFor rsThree userOne ∧ 3 ∉ publishTargets rsThree 3 userOne := by
  decide

/-- Claim C6 (amended): the emit of socket.to(user room) from a sender
channel delivers to exactly the channels subscribed to that user other than
the sender itself, and to no channel not subscribed to the user. -/
theorem publish_fanout_excludes_sender (rs : RoomState) (sender : Channel)
    (u : String) (c : Channel) :
    c ∈ publishTargets rs sender u ↔ (c ∈ channelsFor rs u ∧ c ≠ sender) := by
  simp [publishTargets, channelsFor, List.mem_filter]

/-- Claim C7 (counterexample): channel 1 subscribes to userOne, then
re-subscribes to userTwo; afterwards it is still associated with userOne as
well, and a publish for either user (from an unrelated sender channel 99)
reaches it, so the association is not replaced and the channel receives two
users' streams. -/
theorem resubscribe_claim_counterexample :
    1 ∈ channelsFor rsResub userOne ∧ 1 ∈ channelsFor rsResub userTwo ∧
    1 ∈ publishTargets rsResub 99 userOne ∧ 1 ∈ publishTargets rsResub 99 userTwo := by
  decide

/-- Claim C7 (amended): the join-user-room handler only adds the channel to
the target user room and removes no prior association: afterwards a channel
is subscribed to a user exactly when it was subscribed before or it is the
joining channel and the user is the join target, so associations accumulate
across re-subscriptions instead of replacing each other. -/
theorem join_user_room_accumulates (rs : RoomState) (c : Channel) (u : String)
    (c2 : Channel) (u2 : String) :
    c2 ∈ channelsFor (handleJoinUserRoom rs c u) u2 ↔
      (c2 ∈ channelsFor rs u2 ∨ (c2 = c ∧ u2 = u)) := by
  unfold channelsFor handleJoinUserRoom socketJoin
  by_cases h : (c, userRoom u) ∈ rs.membership
  · rw [if_pos h]
    constructor
    · exact Or.inl
    · rintro (h2 | ⟨rfl, rfl⟩)
      · exact h2
      · exact (mem_roomMembers rs _ _).mpr h
  · rw [if_neg h]
    simp only [mem_roomMembers, List.mem_append, List.mem_singleton, Prod.mk.injEq,
      userRoom_inj]

/-- Claim C8 (counterexample): channel 1 is subscribed to userOne; after the
disconnect handler runs for channel 1, the registry still contains it for
userOne, so the handler does not remove the entries of a disconnected
channel. -/
theorem disconnect_claim_counterexample :
    1 ∈ channelsFor (handleDisconnect rsOne 1) userOne := by
  decide

/-- Claim C8 (amended): the disconnect handler of this module performs no
registry mutation at all (its body only logs): every user keeps exactly the
same channel set. Removal of disconnected channels is not done by this code
and is left to the transport layer. -/
theorem disconnect_handler_preserves_registry (rs : RoomState) (c : Channel)
    (u : String) :
    channelsFor (handleDisconnect rs c) u = channelsFor rs u := rfl

/-- Computation of the meeting-started handler when validation passes: an
unconditional create followed by the emit of the started payload. -/
theorem handleMeetingStarted_valid (st : StoreState) (now : Nat) (e : StartedEvent)
    (hm : jsTruthy e.meetingId = true) (hu : jsTruthy e.userId = true) :
    handleMeetingStarted st now e =
      (let created := createActivity st now (jsStr e.userId) (jsStr e.meetingId)
        e.meetingName kindCreated
        { status := some statusInProgress
          startTime := some ((e.startTime).getD now) }
      { store := created.2
        emitted := some (startedPayload created.1)
        invalid := false }) := by
  unfold handleMeetingStarted
  rw [hm, hu]
  simp only [Bool.not_true, Bool.or_self, Bool.false_eq_true, if_false]

/-- Claim C2: a valid started event always appends one fresh record, with
type created, status in-progress, startTime the supplied value or the
current time, and meetingName the supplied value or the sentinel default,
regardless of the records already stored (no lookup happens). -/
theorem started_event_always_creates_record (st : StoreState) (now : Nat)
    (e : StartedEvent)
    (hm : jsTruthy e.meetingId = true) (hu : jsTruthy e.userId = true) :
    ∃ r, (handleMeetingStarted st now e).store.activities = st.activities ++ [r] ∧
      r.type = "created" ∧ r.status = "in-progress" ∧
      r.startTime = some ((e.startTime).getD now) ∧
      ((∃ s, e.meetingName = some s ∧ s ≠ "" ∧ r.meetingName = s) ∨
        ((e.meetingName = none ∨ e.meetingName = some emptyName) ∧
          r.meetingName = unnamedMeetingName)) := by
  rw [handleMeetingStarted_valid st now e hm hu]
  refine ⟨_, rfl, rfl, rfl, rfl, ?_⟩
  rcases hn : e.meetingName with _ | s
  · exact Or.inr ⟨Or.inl rfl, rfl⟩
  · by_cases hs : s = ""
    · subst hs
      exact Or.inr ⟨Or.inr rfl, by simp [createActivity, jsOrDefault, emptyName]⟩
    · exact Or.inl ⟨s, rfl, hs, by simp [createActivity, jsOrDefault, hs]⟩

/-- Witness for claim C2, at a store that already holds an open session for
the same user and meeting: the started event still appends a fresh record. -/
theorem started_event_always_creates_record_witness :
    jsTruthy evStart1.meetingId = true ∧ jsTruthy evStart1.userId = true ∧
    (∃ r, (handleMeetingStarted st1 100 evStart1).store.activities = st1.activities ++ [r] ∧
      r.type = "created" ∧ r.status = "in-progress" ∧
      r.startTime = some ((evStart1.startTime).getD 100) ∧
      ((∃ s, evStart1.meetingName = some s ∧ s ≠ "" ∧ r.meetingName = s) ∨
        ((evStart1.meetingName = none ∨ evStart1.meetingName = some emptyName) ∧
          r.meetingName = unnamedMeetingName))) :=
  ⟨by decide, by decide,
    started_event_always_creates_record st1 100 evStart1 (by decide) (by decide)⟩

/-- Claim C5: an event whose userId or meetingId is absent or empty is
dropped by both handlers: the store is unchanged, nothing is emitted, and
the handler returns with the validation flag set instead of throwing. -/
theorem invalid_events_are_dropped (st : StoreState) (now : Nat)
    (es : StartedEvent) (ec : CompletedEvent)
    (hs : es.meetingId = none ∨ es.meetingId = some emptyName ∨
      es.userId = none ∨ es.userId = some emptyName)
    (hc : ec.meetingId = none ∨ ec.meetingId = some emptyName ∨
      ec.userId = none ∨ ec.userId = some emptyName) :
    handleMeetingStarted st now es = { store := st, emitted := none, invalid := true } ∧
    handleMeetingCompleted st now ec = { store := st, emitted := none, invalid := true } := by
  have h1 : (!jsTruthy es.meetingId || !jsTruthy es.userId) = true := by
    rcases hs with h | h | h | h <;> simp [jsTruthy, h, emptyName]
  have h2 : (!jsTruthy ec.meetingId || !jsTruthy ec.userId) = true := by
    rcases hc with h | h | h | h <;> simp [jsTruthy, h, emptyName]
  constructor
  · unfold handleMeetingStarted
    rw [h1]
    simp
  · unfold handleMeetingCompleted
    rw [h2]
    simp

/-- Witness for claim C5: a started event missing its userId and a
completion event with an empty meetingId are both dropped without any
store change or emit. -/
theorem invalid_events_are_dropped_witness :
    (evStartBad.userId = none) ∧ (evCompleteBad.meetingId = some emptyName) ∧
    handleMeetingStarted st1 100 evStartBad =
      { store := st1, emitted := none, invalid := true } ∧
    handleMeetingCompleted st1 100 evCompleteBad =
      { store := st1, emitted := none, invalid := true } := by
  refine ⟨by decide, by decide, ?_⟩
  exact invalid_events_are_dropped st1 100 evStartBad evCompleteBad
    (Or.inr (Or.inr (Or.inl (by decide)))) (Or.inr (Or.inl (by decide)))

/-- Claim C1: a completion event whose user and meeting have an open created
session updates that session in place: the store keeps the same number of
records, only the record with the found id is replaced, and the replacement
keeps the id while getting type completed, status completed, the supplied
duration and participants, and the supplied or current endTime. -/
theorem completed_event_updates_open_session_in_place (st : StoreState)
    (now : Nat) (e : CompletedEvent) (r : MeetingActivity) (d : Nat)
    (ps : List Participant)
    (hnd : ((st.activities).map (fun a => a.id)).Nodup)
    (hm : jsTruthy e.meetingId = true) (hu : jsTruthy e.userId = true)
    (hf : findOpenSession st (jsStr e.userId) (jsStr e.meetingId) = some r)
    (hd : e.duration = some d) (hp : e.participants = some ps) :
    ((handleMeetingCompleted st now e).store.activities).length
        = (st.activities).length ∧
    ∃ r2, (handleMeetingCompleted st now e).store.activities
        = (st.activities).map (fun b => if b.id == r.id then r2 else b) ∧
      r2.id = r.id ∧ r2.type = "completed" ∧ r2.status = "completed" ∧
      r2.duration = some d ∧ r2.participants = ps ∧
      r2.endTime = some ((e.endTime).getD now) := by
  rw [handleMeetingCompleted_found st now e r hnd hm hu hf]
  refine ⟨by simp, applyUpdate r (completedUpdateData now e r), rfl, rfl, rfl, rfl, ?_, ?_, rfl⟩
  · simp [applyUpdate, completedUpdateData, hd]
  · simp [applyUpdate, completedUpdateData, hp]

/-- Witness for claim C1 at the sample store with one open session. -/
theorem completed_event_updates_open_session_in_place_witness :
    ((handleMeetingCompleted st1 100 evComplete1).store.activities).length
        = (st1.activities).length ∧
    ∃ r2, (handleMeetingCompleted st1 100 evComplete1).store.activities
        = (st1.activities).map (fun b => if b.id == openRec.id then r2 else b) ∧
      r2.id = openRec.id ∧ r2.type = "completed" ∧ r2.status = "completed" ∧
      r2.duration = some 30 ∧ r2.participants = [] ∧
      r2.endTime = some ((evComplete1.endTime).getD 100) :=
  completed_event_updates_open_session_in_place st1 100 evComplete1 openRec 30 []
    (by decide) (by decide) (by decide) (by decide) (by decide) (by decide)

/-- Claim C9: the in-place update of a completion event only replaces the
found record, leaving the id, userId, meetingId, startTime and createdAt of
that record untouched and every record with a different id unchanged and
still stored. -/
theorem completed_update_frame (st : StoreState) (now : Nat)
    (e : CompletedEvent) (r : MeetingActivity)
    (hnd : ((st.activities).map (fun a => a.id)).Nodup)
    (hm : jsTruthy e.meetingId = true) (hu : jsTruthy e.userId = true)
    (hf : findOpenSession st (jsStr e.userId) (jsStr e.meetingId) = some r) :
    ∃ r2, (handleMeetingCompleted st now e).store.activities
        = (st.activities).map (fun b => if b.id == r.id then r2 else b) ∧
      r2.id = r.id ∧ r2.userId = r.userId ∧ r2.meetingId = r.meetingId ∧
      r2.startTime = r.startTime ∧ r2.createdAt = r.createdAt ∧
      (∀ a, a ∈ st.activities → a.id ≠ r.id →
        a ∈ (handleMeetingCompleted st now e).store.activities) := by
  rw [handleMeetingCompleted_found st now e r hnd hm hu hf]
  refine ⟨applyUpdate r (completedUpdateData now e r), rfl, rfl, rfl, rfl, ?_, rfl, ?_⟩
  · simp [applyUpdate, completedUpdateData]
  · intro a ha hne
    exact List.mem_map.mpr ⟨a, ha, by simp [hne]⟩

/-- Witness for claim C9 at the sample store with one open session. -/
theorem completed_update_frame_witness :
    ∃ r2, (handleMeetingCompleted st1 100 evComplete1).store.activities
        = (st1.activities).map (fun b => if b.id == openRec.id then r2 else b) ∧
      r2.id = openRec.id ∧ r2.userId = openRec.userId ∧
      r2.meetingId = openRec.meetingId ∧
      r2.startTime = openRec.startTime ∧ r2.createdAt = openRec.createdAt ∧
      (∀ a, a ∈ st1.activities → a.id ≠ openRec.id →
        a ∈ (handleMeetingCompleted st1 100 evComplete1).store.activities) :=
  completed_update_frame st1 100 evComplete1 openRec
    (by decide) (by decide) (by decide) (by decide)

/-- Claim C4: on the merge path of a completion event the stored meeting
name is overwritten exactly when the event name is non-empty and different
from the placeholder; an absent, empty or placeholder event name keeps the
previously stored name. -/
theorem completed_merge_name_overwrite_rule (st : StoreState) (now : Nat)
    (e : CompletedEvent) (r : MeetingActivity)
    (hnd : ((st.activities).map (fun a => a.id)).Nodup)
    (hm : jsTruthy e.meetingId = true) (hu : jsTruthy e.userId = true)
    (hf : findOpenSession st (jsStr e.userId) (jsStr e.meetingId) = some r) :
    ∃ r2, (handleMeetingCompleted st now e).store.activities
        = (st.activities).map (fun b => if b.id == r.id then r2 else b) ∧
      r2.id = r.id ∧
      (∀ s, e.meetingName = some s → s ≠ "" → s ≠ "Meeting Room" →
        r2.meetingName = s) ∧
      ((e.meetingName = none ∨ e.meetingName = some emptyName ∨
          e.meetingName = some meetingRoomPlaceholder) →
        r2.meetingName = r.meetingName) := by
  rw [handleMeetingCompleted_found st now e r hnd hm hu hf]
  refine ⟨applyUpdate r (completedUpdateData now e r), rfl, rfl, ?_, ?_⟩
  · intro s hsome hne hnr
    simp [applyUpdate, completedUpdateData, hsome, jsTruthy, jsStr, hne, hnr,
      meetingRoomPlaceholder]
  · rintro (h | h | h) <;>
      simp [applyUpdate, completedUpdateData, h, jsTruthy, jsStr, emptyName,
        meetingRoomPlaceholder]

/-- Witness for claim C4: the stored record named Standup receives a
completion event named with the placeholder; the theorem applies, and its
keep branch covers this event. -/
theorem completed_merge_name_overwrite_rule_witness :
    openRec.meetingName = "Standup" ∧
    evComplete1.meetingName = some meetingRoomPlaceholder ∧
    (∃ r2, (handleMeetingCompleted st1 100 evComplete1).store.activities
        = (st1.activities).map (fun b => if b.id == openRec.id then r2 else b) ∧
      r2.id = openRec.id ∧
      (∀ s, evComplete1.meetingName = some s → s ≠ "" → s ≠ "Meeting Room" →
        r2.meetingName = s) ∧
      ((evComplete1.meetingName = none ∨ evComplete1.meetingName = some emptyName ∨
          evComplete1.meetingName = some meetingRoomPlaceholder) →
        r2.meetingName = openRec.meetingName)) :=
  ⟨by decide, by decide,
    completed_merge_name_overwrite_rule st1 100 evComplete1 openRec
      (by decide) (by decide) (by decide) (by decide)⟩

/-- Claim C3: a completion event with no open session appends one new record
directly in the completed state, copying the event duration, taking
startTime from the event when supplied and leaving it unset otherwise, and
defaulting the meeting name when the event carries none. -/
theorem completed_event_without_session_creates (st : StoreState) (now : Nat)
    (e : CompletedEvent)
    (hm : jsTruthy e.meetingId = true) (hu : jsTruthy e.userId = true)
    (hf : findOpenSession st (jsStr e.userId) (jsStr e.meetingId) = none) :
    ∃ r, (handleMeetingCompleted st now e).store.activities
        = st.activities ++ [r] ∧
      r.type = "completed" ∧ r.status = "completed" ∧
      r.duration = e.duration ∧ r.startTime = e.startTime ∧
      r.endTime = some ((e.endTime).getD now) ∧
      (e.meetingName = none → r.meetingName = unnamedMeetingName) := by
  rw [handleMeetingCompleted_notFound st now e hm hu hf]
  refine ⟨_, rfl, rfl, rfl, rfl, rfl, rfl, ?_⟩
  intro h
  simp [createActivity, jsOrDefault, h]

/-- Witness for claim C3: the bare completion event for userTwo and
meetingTwo against the sample store, which has no open session for that
pair. -/
theorem completed_event_without_session_creates_witness :
    evComplete2.meetingName = none ∧
    (∃ r, (handleMeetingCompleted st1 100 evComplete2).store.activities
        = st1.activities ++ [r] ∧
      r.type = "completed" ∧ r.status = "completed" ∧
      r.duration = evComplete2.duration ∧ r.startTime = evComplete2.startTime ∧
      r.endTime = some ((evComplete2.endTime).getD 100) ∧
      (evComplete2.meetingName = none → r.meetingName = unnamedMeetingName)) :=
  ⟨by decide,
    completed_event_without_session_creates st1 100 evComplete2
      (by decide) (by decide) (by decide)⟩

/-- Claim C10: the placeholder filter applies only on the update path: when
a completion event finds no open session, any non-empty supplied name is
stored verbatim, the placeholder included; only an absent or empty name is
replaced by the sentinel default. -/
theorem completed_create_stores_name_verbatim (st : StoreState) (now : Nat)
    (e : CompletedEvent)
    (hm : jsTruthy e.meetingId = true) (hu : jsTruthy e.userId = true)
    (hf : findOpenSession st (jsStr e.userId) (jsStr e.meetingId) = none) :
    ∃ r, (handleMeetingCompleted st now e).store.activities
        = st.activities ++ [r] ∧
      (∀ s, e.meetingName = some s → s ≠ "" → r.meetingName = s) ∧
      ((e.meetingName = none ∨ e.meetingName = some emptyName) →
        r.meetingName = unnamedMeetingName) := by
  rw [handleMeetingCompleted_notFound st now e hm hu hf]
  refine ⟨_, rfl, ?_, ?_⟩
  · intro s hsome hne
    simp [createActivity, jsOrDefault, hsome, hne]
  · rintro (h | h) <;> simp [createActivity, jsOrDefault, h, emptyName]

/-- Witness for claim C10: a completion event with the placeholder name and
no open session stores the placeholder verbatim. -/
theorem completed_create_stores_name_verbatim_witness :
    evComplete3.meetingName = some meetingRoomPlaceholder ∧
    (∃ r, (handleMeetingCompleted st1 100 evComplete3).store.activities
        = st1.activities ++ [r] ∧
      (∀ s, evComplete3.meetingName = some s → s ≠ "" → r.meetingName = s) ∧
      ((evComplete3.meetingName = none ∨ evComplete3.meetingName = some emptyName) →
        r.meetingName = unnamedMeetingName)) :=
  ⟨by decide,
    completed_create_stores_name_verbatim st1 100 evComplete3
      (by decide) (by decide) (by decide)⟩
